import Mathlib

/-!
Shallow embedding of `pyoxidizer/src/starlark/python_resource.rs`: the
Starlark wrappers for Python resources, the resource-location codec, the
collection-context capability surface, and the resource adapter.

Rust strings are modelled as Lean `String` (a list of characters); the
`"filesystem-relative:"` tag is pure ASCII, so the byte-index `split_at`
in the Rust source coincides with character-level prefix/drop used here.
Mutation through `&mut self` is modelled by explicit state passing: each
setter returns its outcome paired with the post-state.  A Rust `panic!`
is modelled by a distinguished `Outcome.panicked` constructor.
-/

namespace PythonResourceModel

/-- Rust `ConcreteResourceLocation` from the `python_packaging` crate (declared
outside this file; its two variants are taken from their uses here:
`ConcreteResourceLocation::InMemory` and
`ConcreteResourceLocation::RelativePath(prefix)`). -/
inductive ConcreteResourceLocation where
  | inMemory
  | relativePath (p : String)
  deriving DecidableEq, Repr

/-- Modelled from the spec: `Into<String> for ConcreteResourceLocation`
(the encoder of the `python_packaging` crate, not in scope of this file);
spec section 4.1: `encode(InMemory) = "in-memory"`,
`encode(FilesystemRelative(p)) = "filesystem-relative:" + p`. -/
def ConcreteResourceLocation.into_string : ConcreteResourceLocation → String
  | .inMemory => "in-memory"
  | .relativePath p => "filesystem-relative:" ++ p

/-- The `UnsupportedOperation` payload of the starlark crate's
`ValueError::OperationNotSupported` (only the two constructors used in
this file). -/
inductive UnsupportedOperation where
  | getAttr (attr : String)
  | setAttr (attr : String)
  deriving DecidableEq, Repr

/-- The starlark `ValueError` variants constructed by this file: a
`RuntimeError { code, message, label }` and
`OperationNotSupported { op, left, right }`. -/
inductive ValueErr where
  | runtime (code message label : String)
  | operationNotSupported (op : UnsupportedOperation) (left : String) (right : Option String)
  deriving DecidableEq, Repr

/-- The starlark crate's `INCORRECT_PARAMETER_TYPE_ERROR_CODE` constant
(opaque short code defined outside this repository; its exact text is
irrelevant to every property proved below). -/
def INCORRECT_PARAMETER_TYPE_ERROR_CODE : String := "CV02"

/-- Outcome of a call that can succeed, fail with a recoverable
`ValueError`, or hit a Rust `panic!`. -/
inductive Outcome (α : Type) where
  | ok (a : α)
  | err (e : ValueErr)
  | panicked (msg : String)
  deriving DecidableEq, Repr

/-- Rust `PythonModuleSource` record (from `python_packaging`), restricted to
the fields this file reads: `name`, `source` (a `DataLocation` whose
`resolve()` plus the subsequent UTF-8 decoding are performed outside this
file; the wrapper stores the joint outcome), and `is_package`. -/
inductive SourceOutcome where
  | resolved (text : String)
  | resolveError (msg : String)
  | invalidUtf8
  deriving DecidableEq, Repr

structure PythonModuleSource where
  name : String
  source : SourceOutcome
  is_package : Bool
  deriving DecidableEq, Repr

/-- Rust `PythonPackageResource` record, restricted to the fields this file
reads: `leaf_package` and `relative_name`. -/
structure PythonPackageResource where
  leaf_package : String
  relative_name : String
  deriving DecidableEq, Repr

/-- Rust `PythonPackageDistributionResource` record, restricted to the fields
this file reads: `package` and `name`. -/
structure PythonPackageDistributionResource where
  package : String
  name : String
  deriving DecidableEq, Repr

/-- Rust `PythonExtensionModule` record, restricted to the field this file
reads: `name`. -/
structure PythonExtensionModule where
  name : String
  deriving DecidableEq, Repr

/-- Rust `PythonResourceAddCollectionContext` (from `python_packaging`),
restricted to the seven fields this file reads and writes.
(`include` is a Lean keyword, hence the guillemets.) -/
structure PythonResourceAddCollectionContext where
  «include» : Bool
  location : ConcreteResourceLocation
  location_fallback : Option ConcreteResourceLocation
  store_source : Bool
  optimize_level_zero : Bool
  optimize_level_one : Bool
  optimize_level_two : Bool
  deriving DecidableEq, Repr

/-- Rust `PythonResource` enum (from `python_packaging`): the four variants
matched by name in this file, plus `other` standing for every remaining
variant (the source handles all of them through a `_` wildcard arm). -/
inductive PythonResource where
  | moduleSource (m : PythonModuleSource)
  | packageResource (r : PythonPackageResource)
  | packageDistributionResource (r : PythonPackageDistributionResource)
  | extensionModule (em : PythonExtensionModule)
  | other
  deriving DecidableEq, Repr

/-- The four Starlark wrapper structs of this file: each pairs its record
with an optional add-collection context (the extension-module wrapper has
none). -/
structure PythonSourceModuleValue where
  inner : PythonModuleSource
  add_context : Option PythonResourceAddCollectionContext
  deriving DecidableEq, Repr

structure PythonPackageResourceValue where
  inner : PythonPackageResource
  add_context : Option PythonResourceAddCollectionContext
  deriving DecidableEq, Repr

structure PythonPackageDistributionResourceValue where
  inner : PythonPackageDistributionResource
  add_context : Option PythonResourceAddCollectionContext
  deriving DecidableEq, Repr

structure PythonExtensionModuleValue where
  inner : PythonExtensionModule
  deriving DecidableEq, Repr

/-- A wrapper value as handed back by `python_resource_to_value`. -/
inductive WrapperValue where
  | sourceModule (v : PythonSourceModuleValue)
  | packageResource (v : PythonPackageResourceValue)
  | packageDistributionResource (v : PythonPackageDistributionResourceValue)
  | extensionModule (v : PythonExtensionModuleValue)
  deriving DecidableEq, Repr

/-- The starlark `Value` shapes this file interacts with: `NoneType`,
booleans, strings, integers (standing for any non-string, non-null
scalar), and the wrapper objects it constructs. -/
inductive SValue where
  | none
  | bool (b : Bool)
  | str (s : String)
  | int (n : Int)
  | wrapped (w : WrapperValue)
  deriving DecidableEq, Repr

/-- Rust `Value::get_type()` of the starlark crate for the shapes above. -/
def SValue.get_type : SValue → String
  | .none => "NoneType"
  | .bool _ => "bool"
  | .str _ => "string"
  | .int _ => "int"
  | .wrapped (.sourceModule _) => "PythonSourceModule"
  | .wrapped (.packageResource _) => "PythonPackageResource"
  | .wrapped (.packageDistributionResource _) => "PythonPackageDistributionResource"
  | .wrapped (.extensionModule _) => "PythonExtensionModule"

/-- Modelled from the spec: the host language's `Value::to_str()`
(outside this repository).  Only the `string` case is ever reached by the
code under proof; the rest follows Starlark display conventions. -/
def SValue.to_str : SValue → String
  | .none => "None"
  | .bool true => "True"
  | .bool false => "False"
  | .str s => s
  | .int n => toString n
  | .wrapped _ => ""

/-- Modelled from the spec: the host language's boolean coercion
`Value::to_bool()` (spec section 4.3, `bool(value)`); None is falsy,
empty string and zero are falsy, wrapper objects are truthy (the
distribution wrapper also hard-codes `to_bool = true` in this file). -/
def SValue.to_bool : SValue → Bool
  | .none => false
  | .bool b => b
  | .str s => !s.isEmpty
  | .int n => n != 0
  | .wrapped _ => true

/-- Rust `OptionalResourceLocation`: `inner : Option<ConcreteResourceLocation>`. -/
structure OptionalResourceLocation where
  inner : Option ConcreteResourceLocation
  deriving DecidableEq, Repr

/-- The `"filesystem-relative:"` tag tested by the decoder. -/
def fsRelTag : String := "filesystem-relative:"

/-- Rust `From<&OptionalResourceLocation> for Value` (the encoder of this
file): `InMemory` to `"in-memory"`, `RelativePath(prefix)` to
`"filesystem-relative:" + prefix`, absent to `None`. -/
def OptionalResourceLocation.to_value (location : OptionalResourceLocation) : SValue :=
  match location.inner with
  | some .inMemory => .str ("in-memory")
  | some (.relativePath p) => .str ("filesystem-relative:" ++ p)
  | none => .none

/-- Rust `TryFrom<&str> for OptionalResourceLocation`: `"default"` decodes to
absent, `"in-memory"` to `InMemory`, a string starting with
`"filesystem-relative:"` to `RelativePath` of the verbatim remainder,
anything else to a `RuntimeError` naming the value and the accepted
shapes.  The Rust `s.starts_with(tag)` / byte-level `split_at` appear
here as character-list prefix test and drop (the tag is pure ASCII). -/
def OptionalResourceLocation.try_from_str (s : String) : Except ValueErr OptionalResourceLocation :=
  if s = "default" then
    .ok ⟨none⟩
  else if s = "in-memory" then
    .ok ⟨some .inMemory⟩
  else if fsRelTag.data.isPrefixOf s.data then
    .ok ⟨some (.relativePath ⟨s.data.drop fsRelTag.data.length⟩)⟩
  else
    .error (.runtime INCORRECT_PARAMETER_TYPE_ERROR_CODE
      ("unable to convert value " ++ s ++ " to a resource location")
      ("expected `default`, `in-memory`, or `filesystem-relative:*`; got " ++ s))

/-- Rust `TryFrom<&Value> for OptionalResourceLocation`: dispatch on
`get_type()`; `NoneType` decodes to absent, `string` delegates to the
string decoder, any other type yields a `RuntimeError` naming only the
type. -/
def OptionalResourceLocation.try_from_value (value : SValue) :
    Except ValueErr OptionalResourceLocation :=
  if value.get_type = "NoneType" then
    .ok ⟨none⟩
  else if value.get_type = "string" then
    OptionalResourceLocation.try_from_str value.to_str
  else
    .error (.runtime INCORRECT_PARAMETER_TYPE_ERROR_CODE
      ("unable to convert value " ++ value.get_type ++ " to resource location")
      "resource location conversion")

/-- Rust `ResourceCollectionContext::add_collection_context_attrs`: the seven
Starlark attribute names serviced by the shared capability surface. -/
def add_collection_context_attrs : List String :=
  ["add_include",
   "add_location",
   "add_location_fallback",
   "add_source",
   "add_bytecode_optimization_level_zero",
   "add_bytecode_optimization_level_one",
   "add_bytecode_optimization_level_two"]

/-- Rust `ResourceCollectionContext::get_attr_add_collection_context`,
abstracted over the implementor's `add_collection_context()` accessor
(every implementor returns its `add_context` field).  A call with an
attribute outside the list, or the unreachable inner wildcard, is a
`panic!`. -/
def get_attr_add_collection_context
    (context : Option PythonResourceAddCollectionContext) (attr : String) :
    Outcome SValue :=
  if !(add_collection_context_attrs.contains attr) then
    .panicked ("get_attr_add_collection_context(" ++ attr ++
      ") called when it shouldn't have been")
  else
    match context with
    | some context =>
      if attr = "add_bytecode_optimization_level_zero" then
        .ok (.bool context.optimize_level_zero)
      else if attr = "add_bytecode_optimization_level_one" then
        .ok (.bool context.optimize_level_one)
      else if attr = "add_bytecode_optimization_level_two" then
        .ok (.bool context.optimize_level_two)
      else if attr = "add_include" then
        .ok (.bool context.«include»)
      else if attr = "add_location" then
        .ok (.str context.location.into_string)
      else if attr = "add_location_fallback" then
        match context.location_fallback with
        | some location => .ok (.str location.into_string)
        | none => .ok .none
      else if attr = "add_source" then
        .ok (.bool context.store_source)
      else
        .panicked ("this should not happen")
    | none => .ok .none

/-- Rust `ResourceCollectionContext::set_attr_add_collection_context`,
abstracted over the implementor's mutable context accessor; the `&mut`
mutation is returned as the second component (the post-context). -/
def set_attr_add_collection_context
    (context : Option PythonResourceAddCollectionContext) (attr : String)
    (value : SValue) :
    Outcome Unit × Option PythonResourceAddCollectionContext :=
  match context with
  | some context =>
    if attr = "add_bytecode_optimization_level_zero" then
      (.ok (), some { context with optimize_level_zero := value.to_bool })
    else if attr = "add_bytecode_optimization_level_one" then
      (.ok (), some { context with optimize_level_one := value.to_bool })
    else if attr = "add_bytecode_optimization_level_two" then
      (.ok (), some { context with optimize_level_two := value.to_bool })
    else if attr = "add_include" then
      (.ok (), some { context with «include» := value.to_bool })
    else if attr = "add_location" then
      match OptionalResourceLocation.try_from_value value with
      | .error e => (.err e, some context)
      | .ok location =>
        match location.inner with
        | some location => (.ok (), some { context with location := location })
        | none =>
          (.err (.operationNotSupported (.setAttr attr) "set_attr" none), some context)
    else if attr = "add_location_fallback" then
      match OptionalResourceLocation.try_from_value value with
      | .error e => (.err e, some context)
      | .ok location =>
        match location.inner with
        | some location => (.ok (), some { context with location_fallback := some location })
        | none => (.ok (), some { context with location_fallback := none })
    else if attr = "add_source" then
      (.ok (), some { context with store_source := value.to_bool })
    else
      (.panicked ("set_attr_add_collection_context(" ++ attr ++
        ") called when it shouldn't have been"), some context)
  | none =>
    (.err (.runtime ("PYOXIDIZER")
      "attempting to set a collection context attribute on an object without a context"
      "setattr()"), none)

/-- Modelled from the spec: `PythonPackagingPolicy` and its
`derive_collection_add_context` (spec section 4.2: an opaque pure
function from the resource to a fresh context, owned by the policy
collaborator outside this file). -/
def PythonPackagingPolicy : Type :=
  PythonResource → PythonResourceAddCollectionContext

/-- Rust `ResourceCollectionContext::apply_packaging_policy`, specialised by
each wrapper's `as_python_resource()`: replaces the context with one
derived from the policy. -/
def apply_packaging_policy (policy : PythonPackagingPolicy)
    (resource : PythonResource)
    (_old : Option PythonResourceAddCollectionContext) :
    Option PythonResourceAddCollectionContext :=
  some (policy resource)

/-- Rust `PythonSourceModuleValue::get_attr`: intrinsic attributes `name`,
`source` (surfacing resolution and UTF-8 errors as distinct
`PYOXIDIZER_SOURCE_ERROR` runtime errors), `is_package`; capability
attributes delegate to the shared context getter; anything else is
`OperationNotSupported`. -/
def PythonSourceModuleValue.get_attr (self : PythonSourceModuleValue)
    (attr : String) : Outcome SValue :=
  if attr = "name" then
    .ok (.str self.inner.name)
  else if attr = "source" then
    match self.inner.source with
    | .resolved text => .ok (.str text)
    | .resolveError e =>
      .err (.runtime ("PYOXIDIZER_SOURCE_ERROR")
        ("error resolving source code: " ++ e) "source")
    | .invalidUtf8 =>
      .err (.runtime ("PYOXIDIZER_SOURCE_ERROR")
        "error converting source code to UTF-8" "source")
  else if attr = "is_package" then
    .ok (.bool self.inner.is_package)
  else if add_collection_context_attrs.contains attr then
    get_attr_add_collection_context self.add_context attr
  else
    .err (.operationNotSupported (.getAttr attr) "PythonSourceModule" none)

/-- Rust `PythonSourceModuleValue::has_attr`. -/
def PythonSourceModuleValue.has_attr (_self : PythonSourceModuleValue)
    (attr : String) : Bool :=
  if attr = "name" then true
  else if attr = "source" then true
  else if attr = "is_package" then true
  else add_collection_context_attrs.contains attr

/-- Rust `PythonSourceModuleValue::set_attr`: capability attributes delegate
to the shared context setter, everything else is `OperationNotSupported`
(`Self::TYPE` is `"PythonSourceModule"`). -/
def PythonSourceModuleValue.set_attr (self : PythonSourceModuleValue)
    (attr : String) (value : SValue) :
    Outcome Unit × PythonSourceModuleValue :=
  if add_collection_context_attrs.contains attr then
    let r := set_attr_add_collection_context self.add_context attr value
    (r.1, { self with add_context := r.2 })
  else
    (.err (.operationNotSupported (.setAttr attr) "PythonSourceModule" none), self)

/-- Rust `PythonPackageResourceValue::get_attr`: only `package` and `name`;
every other attribute (capability attributes included) is
`OperationNotSupported`. -/
def PythonPackageResourceValue.get_attr (self : PythonPackageResourceValue)
    (attr : String) : Outcome SValue :=
  if attr = "package" then
    .ok (.str self.inner.leaf_package)
  else if attr = "name" then
    .ok (.str self.inner.relative_name)
  else
    .err (.operationNotSupported (.getAttr attr) "PythonPackageResource" none)

/-- Rust `PythonPackageResourceValue::has_attr`: only `package` and `name`. -/
def PythonPackageResourceValue.has_attr (_self : PythonPackageResourceValue)
    (attr : String) : Bool :=
  if attr = "package" then true
  else if attr = "name" then true
  else false

/-- Modelled from the spec: the host trait's default `set_attr`, in
effect for the two wrapper kinds of this file that wire no write path
(spec section 4.4: "writes to any attribute, including capability
attributes, fail as unsupported"). -/
def default_set_attr (typeName : String) (attr : String) : ValueErr :=
  .operationNotSupported (.setAttr attr) typeName none

/-- Rust `PythonPackageResourceValue` implements no `set_attr`; a write falls
through to the host default and leaves the wrapper unchanged. -/
def PythonPackageResourceValue.set_attr (self : PythonPackageResourceValue)
    (attr : String) (_value : SValue) :
    Outcome Unit × PythonPackageResourceValue :=
  (.err (default_set_attr ("PythonPackageResource") attr), self)

/-- Rust `PythonPackageDistributionResourceValue::get_attr`: only `package`
and `name`. -/
def PythonPackageDistributionResourceValue.get_attr
    (self : PythonPackageDistributionResourceValue) (attr : String) :
    Outcome SValue :=
  if attr = "package" then
    .ok (.str self.inner.package)
  else if attr = "name" then
    .ok (.str self.inner.name)
  else
    .err (.operationNotSupported (.getAttr attr)
      "PythonPackageDistributionResource" none)

/-- Rust `PythonPackageDistributionResourceValue::has_attr`: only `package`
and `name`. -/
def PythonPackageDistributionResourceValue.has_attr
    (_self : PythonPackageDistributionResourceValue) (attr : String) : Bool :=
  if attr = "package" then true
  else if attr = "name" then true
  else false

/-- Rust `PythonPackageDistributionResourceValue` implements no `set_attr`; a
write falls through to the host default and leaves the wrapper
unchanged. -/
def PythonPackageDistributionResourceValue.set_attr
    (self : PythonPackageDistributionResourceValue) (attr : String)
    (_value : SValue) :
    Outcome Unit × PythonPackageDistributionResourceValue :=
  (.err (default_set_attr ("PythonPackageDistributionResource") attr), self)

/-- Rust `PythonExtensionModuleValue::get_attr`: only `name`. -/
def PythonExtensionModuleValue.get_attr (self : PythonExtensionModuleValue)
    (attr : String) : Outcome SValue :=
  if attr = "name" then
    .ok (.str self.inner.name)
  else
    .err (.operationNotSupported (.getAttr attr) "PythonExtensionModule" none)

/-- Rust `PythonExtensionModuleValue::has_attr`: only `name`. -/
def PythonExtensionModuleValue.has_attr (_self : PythonExtensionModuleValue)
    (attr : String) : Bool :=
  attr = "name"

/-- Rust `is_resource_starlark_compatible`: true for exactly the four wrapped
kinds, false for everything else. -/
def is_resource_starlark_compatible : PythonResource → Bool
  | .moduleSource _ => true
  | .packageResource _ => true
  | .packageDistributionResource _ => true
  | .extensionModule _ => true
  | _ => false

/-- Rust `python_resource_to_value`: builds the matching wrapper, applies the
packaging policy to the three context-bearing kinds, and `panic!`s on
any other variant. -/
def python_resource_to_value (resource : PythonResource)
    (policy : PythonPackagingPolicy) : Outcome SValue :=
  match resource with
  | .moduleSource sm =>
    .ok (.wrapped (.sourceModule
      { inner := sm,
        add_context := apply_packaging_policy policy (.moduleSource sm) none }))
  | .packageResource data =>
    .ok (.wrapped (.packageResource
      { inner := data,
        add_context := apply_packaging_policy policy (.packageResource data) none }))
  | .packageDistributionResource resource =>
    .ok (.wrapped (.packageDistributionResource
      { inner := resource,
        add_context :=
          apply_packaging_policy policy (.packageDistributionResource resource) none }))
  | .extensionModule em =>
    .ok (.wrapped (.extensionModule { inner := em }))
  | .other =>
    .panicked ("incompatible PythonResource variant passed; did you forget to filter through is_resource_starlark_compatible()?")

/-! ### Helper notions and lemmas -/

/-- Bool test: `needle` occurs as a contiguous run inside the haystack
(used to make "the error message names X" precise). -/
def subListOf (needle : List Char) : List Char → Bool
  | [] => needle.isEmpty
  | c :: rest => needle.isPrefixOf (c :: rest) || subListOf needle rest

theorem subListOf_append (n p q : List Char) : subListOf n (p ++ n ++ q) = true := by
  induction p with
  | nil =>
    cases hn : n ++ q with
    | nil => simp_all [subListOf, List.isEmpty]
    | cons c rest =>
      simp only [List.nil_append, hn, subListOf]
      have hpre : n.isPrefixOf (n ++ q) = true := by simp [ List.isPrefixOf_iff_prefix]
      rw [hn] at hpre
      simp [hpre]
  | cons c p ih =>
    simp only [List.cons_append, subListOf]
    rw [show (p.append n).append q = p ++ n ++ q from rfl, ih]
    simp

theorem fsRelTag_prefix_append (p : String) :
    fsRelTag.data.isPrefixOf (fsRelTag ++ p).data = true := by
  rw [String.data_append]
  simp [ List.isPrefixOf_iff_prefix]

theorem fsRelTag_append_ne_default (p : String) : fsRelTag ++ p ≠ "default" := by
  intro h
  have h' := congrArg String.data h
  rw [String.data_append] at h'
  simp [fsRelTag] at h'

theorem fsRelTag_append_ne_inMemory (p : String) : fsRelTag ++ p ≠ "in-memory" := by
  intro h
  have h' := congrArg String.data h
  rw [String.data_append] at h'
  simp [fsRelTag] at h'

theorem fsRelTag_append_drop (p : String) :
    (fsRelTag ++ p).data.drop fsRelTag.data.length = p.data := by
  rw [String.data_append]
  rfl

theorem try_from_str_fs (p : String) :
    OptionalResourceLocation.try_from_str (fsRelTag ++ p) =
      .ok ⟨some (.relativePath p)⟩ := by
  unfold OptionalResourceLocation.try_from_str
  simp [fsRelTag_append_ne_default p, fsRelTag_append_ne_inMemory p,
    fsRelTag_prefix_append p, fsRelTag_append_drop p]

theorem try_from_value_str (s : String) :
    OptionalResourceLocation.try_from_value (.str s) =
      OptionalResourceLocation.try_from_str s := by
  rfl

theorem try_from_str_error (s : String) (h1 : s ≠ "default") (h2 : s ≠ "in-memory")
    (h3 : fsRelTag.data.isPrefixOf s.data = false) :
    OptionalResourceLocation.try_from_str s =
      .error (.runtime INCORRECT_PARAMETER_TYPE_ERROR_CODE
        ("unable to convert value " ++ s ++ " to a resource location")
        ("expected `default`, `in-memory`, or `filesystem-relative:*`; got " ++ s)) := by
  unfold OptionalResourceLocation.try_from_str
  simp [h1, h2, h3]

theorem try_from_value_wrong_type (v : SValue) (h1 : v.get_type ≠ "NoneType")
    (h2 : v.get_type ≠ "string") :
    OptionalResourceLocation.try_from_value v =
      .error (.runtime INCORRECT_PARAMETER_TYPE_ERROR_CODE
        ("unable to convert value " ++ v.get_type ++ " to resource location")
        "resource location conversion") := by
  unfold OptionalResourceLocation.try_from_value
  simp [h1, h2]

theorem isPrefixOf_append_right (l m t : List Char) (h : l.isPrefixOf m = true) :
    l.isPrefixOf (m ++ t) = true := by
  rw [ List.isPrefixOf_iff_prefix] at h ⊢
  exact h.trans (List.prefix_append m t)

theorem subListOf_append_right (n h t : List Char) (hn : subListOf n h = true) :
    subListOf n (h ++ t) = true := by
  induction h with
  | nil =>
    have : n = [] := by simpa [subListOf, List.isEmpty_iff] using hn
    subst this
    cases t with
    | nil => simp [subListOf, List.isEmpty]
    | cons c rest => simp [subListOf, List.isPrefixOf]
  | cons c rest ih =>
    simp only [subListOf, Bool.or_eq_true] at hn
    rcases hn with hn | hn
    · have := isPrefixOf_append_right n (c :: rest) t hn
      simp only [List.cons_append, subListOf, Bool.or_eq_true]
      left
      simpa using this
    · simp only [List.cons_append, subListOf, Bool.or_eq_true]
      right
      exact ih hn

theorem mem_attrs_cases (attr : String)
    (h : add_collection_context_attrs.contains attr = true) :
    attr = "add_include" ∨ attr = "add_location" ∨ attr = "add_location_fallback" ∨
    attr = "add_source" ∨ attr = "add_bytecode_optimization_level_zero" ∨
    attr = "add_bytecode_optimization_level_one" ∨
    attr = "add_bytecode_optimization_level_two" := by
  simp [add_collection_context_attrs, List.contains] at h
  tauto

/-- Sample values used by the concrete witnesses and counterexamples
below (the context mirrors the example policy defaults of the spec's
section 8). -/
def sampleContext : PythonResourceAddCollectionContext :=
  { «include» := true, location := .inMemory, location_fallback := none,
    store_source := true, optimize_level_zero := true,
    optimize_level_one := false, optimize_level_two := false }

def sampleModuleSource : PythonModuleSource :=
  { name := "foo", source := .resolved ("import bar"), is_package := false }

def samplePackageResource : PythonPackageResource :=
  { leaf_package := "pkg", relative_name := "data.txt" }

def sampleDistResource : PythonPackageDistributionResource :=
  { package := "pkg", name := "METADATA" }

/-! ### Claim theorems -/

/-- C2: the location decoder is total over exactly three shapes:
`"default"` and `None` decode to the absent location, `"in-memory"`
decodes to `InMemory`, any string starting with `"filesystem-relative:"`
decodes to `FilesystemRelative` of the verbatim remainder (the empty
remainder included), and every other string, as well as every value that
is neither a string nor `None`, is a decode error.  Matching is
case-sensitive: the error conjuncts apply to any differently-cased
spelling. -/
theorem C2_location_decoder_total :
    (OptionalResourceLocation.try_from_value (.str ("default")) = .ok ⟨none⟩)
    ∧ (OptionalResourceLocation.try_from_value .none = .ok ⟨none⟩)
    ∧ (OptionalResourceLocation.try_from_value (.str ("in-memory")) = .ok ⟨some .inMemory⟩)
    ∧ (∀ p : String, OptionalResourceLocation.try_from_value (.str (fsRelTag ++ p)) =
        .ok ⟨some (.relativePath p)⟩)
    ∧ (∀ s : String, s ≠ "default" → s ≠ "in-memory" →
        fsRelTag.data.isPrefixOf s.data = false →
        ∃ e, OptionalResourceLocation.try_from_value (.str s) = .error e)
    ∧ (∀ v : SValue, v.get_type ≠ "NoneType" → v.get_type ≠ "string" →
        ∃ e, OptionalResourceLocation.try_from_value v = .error e) := by
  refine ⟨rfl, rfl, rfl, ?_, ?_, ?_⟩
  · intro p
    rw [try_from_value_str, try_from_str_fs]
  · intro s h1 h2 h3
    exact ⟨_, by rw [try_from_value_str, try_from_str_error s h1 h2 h3]⟩
  · intro v h1 h2
    exact ⟨_, try_from_value_wrong_type v h1 h2⟩

/-- C2 witness: the decoder evaluated on concrete inputs covering the
hypotheses of the main statement (`"filesystem-relative:lib"`, the
wrongly-cased `"Default"`, and an integer value). -/
theorem C2_location_decoder_total_witness :
    (OptionalResourceLocation.try_from_value (.str (fsRelTag ++ "lib")) =
      .ok ⟨some (.relativePath ("lib"))⟩)
    ∧ (∃ e, OptionalResourceLocation.try_from_value (.str ("Default")) = .error e)
    ∧ (∃ e, OptionalResourceLocation.try_from_value (.int 7) = .error e) :=
  ⟨C2_location_decoder_total.2.2.2.1 ("lib"),
   C2_location_decoder_total.2.2.2.2.1 ("Default") (by decide) (by decide) (by decide),
   C2_location_decoder_total.2.2.2.2.2 (.int 7) (by decide) (by decide)⟩

/-- C3: for every concrete (non-absent) resource location, decoding the
encoded string form gives the location back: `decode(encode(x)) = x` for
`InMemory` and every `FilesystemRelative(p)`. -/
theorem C3_roundtrip (x : ConcreteResourceLocation) :
    OptionalResourceLocation.try_from_value (OptionalResourceLocation.to_value ⟨some x⟩) =
      .ok ⟨some x⟩ := by
  cases x with
  | inMemory => rfl
  | relativePath p =>
    show OptionalResourceLocation.try_from_value (.str (fsRelTag ++ p)) = _
    rw [try_from_value_str, try_from_str_fs]

/-- C9 counterexample: the claim says every decode error carries the
offending raw value and a message naming the three accepted shapes, but
the error produced for the integer value `7` names only the *type*
(`"int"`): neither its message nor its label contains the digit `7`, and
neither names any of the three accepted shapes. -/
theorem C9_counterexample :
    OptionalResourceLocation.try_from_value (.int 7) =
      .error (.runtime INCORRECT_PARAMETER_TYPE_ERROR_CODE
        ("unable to convert value int to resource location")
        "resource location conversion")
    ∧ subListOf ("7").data ("unable to convert value int to resource location").data = false
    ∧ subListOf ("7").data ("resource location conversion").data = false
    ∧ subListOf ("default").data ("unable to convert value int to resource location").data = false
    ∧ subListOf ("default").data ("resource location conversion").data = false
    ∧ subListOf ("in-memory").data ("unable to convert value int to resource location").data = false
    ∧ subListOf ("in-memory").data ("resource location conversion").data = false
    ∧ subListOf fsRelTag.data ("unable to convert value int to resource location").data = false
    ∧ subListOf fsRelTag.data ("resource location conversion").data = false :=
  ⟨rfl, by decide, by decide, by decide, by decide, by decide, by decide,
   by decide, by decide⟩

/-- C9 (amended): a decode error for a malformed *string* carries the
offending string in both message and label and names the three accepted
shapes in its label; a decode error for a wrong-*typed* value (neither
string nor null) carries only the value's type name in its message, and
its label is the fixed text "resource location conversion", which names
neither the raw value nor the accepted shapes. -/
theorem C9_amended_decode_error_payloads :
    (∀ s : String, s ≠ "default" → s ≠ "in-memory" →
      fsRelTag.data.isPrefixOf s.data = false →
      OptionalResourceLocation.try_from_value (.str s) =
        .error (.runtime INCORRECT_PARAMETER_TYPE_ERROR_CODE
          ("unable to convert value " ++ s ++ " to a resource location")
          ("expected `default`, `in-memory`, or `filesystem-relative:*`; got " ++ s))
      ∧ subListOf s.data ("unable to convert value " ++ s ++ " to a resource location").data = true
      ∧ subListOf s.data
          ("expected `default`, `in-memory`, or `filesystem-relative:*`; got " ++ s).data = true
      ∧ subListOf ("default").data
          ("expected `default`, `in-memory`, or `filesystem-relative:*`; got " ++ s).data = true
      ∧ subListOf ("in-memory").data
          ("expected `default`, `in-memory`, or `filesystem-relative:*`; got " ++ s).data = true
      ∧ subListOf fsRelTag.data
          ("expected `default`, `in-memory`, or `filesystem-relative:*`; got " ++ s).data = true)
    ∧ (∀ v : SValue, v.get_type ≠ "NoneType" → v.get_type ≠ "string" →
      OptionalResourceLocation.try_from_value v =
        .error (.runtime INCORRECT_PARAMETER_TYPE_ERROR_CODE
          ("unable to convert value " ++ v.get_type ++ " to resource location")
          "resource location conversion")
      ∧ subListOf v.get_type.data
          ("unable to convert value " ++ v.get_type ++ " to resource location").data = true) := by
  constructor
  · intro s h1 h2 h3
    refine ⟨by rw [try_from_value_str, try_from_str_error s h1 h2 h3], ?_, ?_, ?_, ?_, ?_⟩
    · rw [String.data_append, String.data_append]
      exact subListOf_append s.data ("unable to convert value ").data (" to a resource location").data
    · rw [String.data_append]
      have := subListOf_append s.data
        ("expected `default`, `in-memory`, or `filesystem-relative:*`; got ").data []
      simpa using this
    · rw [String.data_append]
      refine subListOf_append_right _ _ _ ?_
      decide
    · rw [String.data_append]
      refine subListOf_append_right _ _ _ ?_
      decide
    · rw [String.data_append]
      refine subListOf_append_right _ _ _ ?_
      decide
  · intro v h1 h2
    refine ⟨try_from_value_wrong_type v h1 h2, ?_⟩
    rw [String.data_append, String.data_append]
    exact subListOf_append v.get_type.data ("unable to convert value ").data
      (" to resource location").data

/-- C9 witness: the amended statement evaluated at the malformed string
`"bogus"` and the integer value `7`. -/
theorem C9_amended_decode_error_payloads_witness :
    (OptionalResourceLocation.try_from_value (.str ("bogus")) =
      .error (.runtime INCORRECT_PARAMETER_TYPE_ERROR_CODE
        ("unable to convert value " ++ "bogus" ++ " to a resource location")
        ("expected `default`, `in-memory`, or `filesystem-relative:*`; got " ++ "bogus")))
    ∧ subListOf ("bogus").data
        ("unable to convert value " ++ "bogus" ++ " to a resource location").data = true
    ∧ (OptionalResourceLocation.try_from_value (.int 7) =
      .error (.runtime INCORRECT_PARAMETER_TYPE_ERROR_CODE
        ("unable to convert value " ++ (SValue.int 7).get_type ++ " to resource location")
        "resource location conversion")) :=
  ⟨(C9_amended_decode_error_payloads.1 ("bogus") (by decide) (by decide) (by decide)).1,
   (C9_amended_decode_error_payloads.1 ("bogus") (by decide) (by decide) (by decide)).2.1,
   (C9_amended_decode_error_payloads.2 (.int 7) (by decide) (by decide)).1⟩

/-- C1 counterexample: the claim says the package-resource and
package-distribution-resource wrappers expose every capability attribute
for read, but `has_attr("add_include")` is `false` on both (even with a
stored context), and `get_attr("add_include")` fails as unsupported. -/
theorem C1_counterexample :
    PythonPackageResourceValue.has_attr
      ⟨samplePackageResource, some sampleContext⟩ "add_include" = false
    ∧ PythonPackageDistributionResourceValue.has_attr
      ⟨sampleDistResource, some sampleContext⟩ "add_include" = false
    ∧ PythonPackageResourceValue.get_attr
      ⟨samplePackageResource, some sampleContext⟩ "add_include" =
        .err (.operationNotSupported (.getAttr ("add_include")) "PythonPackageResource" none)
    ∧ PythonPackageDistributionResourceValue.get_attr
      ⟨sampleDistResource, some sampleContext⟩ "add_include" =
        .err (.operationNotSupported (.getAttr ("add_include"))
          "PythonPackageDistributionResource" none) :=
  ⟨rfl, rfl, rfl, rfl⟩

/-- C1 (amended): on the package-resource and package-distribution-
resource wrappers the capability attributes are not exposed at all, not
even for read: `has_attr` reports `false`, `get_attr` fails as
unsupported, and every write — serviced by the host trait's default
`set_attr`, since neither wrapper wires a write path — fails as
unsupported and leaves the wrapper unchanged. -/
theorem C1_amended_no_capability_exposure (attr : String)
    (h : add_collection_context_attrs.contains attr = true)
    (pr : PythonPackageResourceValue) (pd : PythonPackageDistributionResourceValue)
    (v : SValue) :
    pr.has_attr attr = false
    ∧ pr.get_attr attr =
        .err (.operationNotSupported (.getAttr attr) "PythonPackageResource" none)
    ∧ pr.set_attr attr v =
        (.err (.operationNotSupported (.setAttr attr) "PythonPackageResource" none), pr)
    ∧ pd.has_attr attr = false
    ∧ pd.get_attr attr =
        .err (.operationNotSupported (.getAttr attr) "PythonPackageDistributionResource" none)
    ∧ pd.set_attr attr v =
        (.err (.operationNotSupported (.setAttr attr)
          "PythonPackageDistributionResource" none), pd) := by
  rcases mem_attrs_cases attr h with rfl | rfl | rfl | rfl | rfl | rfl | rfl <;>
    exact ⟨rfl, rfl, rfl, rfl, rfl, rfl⟩

/-- C1 witness: the amended statement evaluated at `"add_location"` on
concrete context-bearing wrappers. -/
theorem C1_amended_no_capability_exposure_witness :
    PythonPackageResourceValue.has_attr
      ⟨samplePackageResource, some sampleContext⟩ "add_location" = false
    ∧ PythonPackageResourceValue.get_attr
        ⟨samplePackageResource, some sampleContext⟩ "add_location" =
        .err (.operationNotSupported (.getAttr ("add_location")) "PythonPackageResource" none)
    ∧ PythonPackageResourceValue.set_attr
        ⟨samplePackageResource, some sampleContext⟩ "add_location" (.bool true) =
        (.err (.operationNotSupported (.setAttr ("add_location")) "PythonPackageResource" none),
         ⟨samplePackageResource, some sampleContext⟩)
    ∧ PythonPackageDistributionResourceValue.has_attr
        ⟨sampleDistResource, some sampleContext⟩ "add_location" = false
    ∧ PythonPackageDistributionResourceValue.get_attr
        ⟨sampleDistResource, some sampleContext⟩ "add_location" =
        .err (.operationNotSupported (.getAttr ("add_location"))
          "PythonPackageDistributionResource" none)
    ∧ PythonPackageDistributionResourceValue.set_attr
        ⟨sampleDistResource, some sampleContext⟩ "add_location" (.bool true) =
        (.err (.operationNotSupported (.setAttr ("add_location"))
          "PythonPackageDistributionResource" none),
         ⟨sampleDistResource, some sampleContext⟩) :=
  C1_amended_no_capability_exposure ("add_location") (by decide)
    ⟨samplePackageResource, some sampleContext⟩
    ⟨sampleDistResource, some sampleContext⟩ (.bool true)

/-- C4: on a source-module wrapper with a present context, writing
`add_location` with `"default"` or with `None` fails (the decoded
location is the absent sentinel, which the setter rejects) and leaves
the wrapper — context included — exactly as it was; writing
`"in-memory"` or any `"filesystem-relative:"`-prefixed string succeeds
and stores the decoded concrete location, so the stored `location`
field is a concrete placement after every successful write. -/
theorem C4_add_location_write (inn : PythonModuleSource)
    (ctx : PythonResourceAddCollectionContext) (p : String) :
    (PythonSourceModuleValue.set_attr ⟨inn, some ctx⟩ "add_location" (.str ("default")) =
      (.err (.operationNotSupported (.setAttr ("add_location")) "set_attr" none),
       ⟨inn, some ctx⟩))
    ∧ (PythonSourceModuleValue.set_attr ⟨inn, some ctx⟩ "add_location" .none =
      (.err (.operationNotSupported (.setAttr ("add_location")) "set_attr" none),
       ⟨inn, some ctx⟩))
    ∧ (PythonSourceModuleValue.set_attr ⟨inn, some ctx⟩ "add_location" (.str ("in-memory")) =
      (.ok (), ⟨inn, some { ctx with location := .inMemory }⟩))
    ∧ (PythonSourceModuleValue.set_attr ⟨inn, some ctx⟩ "add_location"
        (.str (fsRelTag ++ p)) =
      (.ok (), ⟨inn, some { ctx with location := .relativePath p }⟩)) := by
  refine ⟨rfl, rfl, rfl, ?_⟩
  simp [PythonSourceModuleValue.set_attr, set_attr_add_collection_context,
    try_from_value_str, try_from_str_fs, add_collection_context_attrs]

/-- C5 counterexample: the claim says a write with an absent context
fails with an error naming the attribute being set and the wrapper's
kind, but the error actually produced for `add_include` on a contextless
source-module wrapper is a fixed `RuntimeError` whose message and label
contain neither `"add_include"` nor `"PythonSourceModule"`. -/
theorem C5_counterexample :
    PythonSourceModuleValue.set_attr ⟨sampleModuleSource, none⟩ "add_include" (.bool true) =
      (.err (.runtime ("PYOXIDIZER")
        "attempting to set a collection context attribute on an object without a context"
        "setattr()"),
       ⟨sampleModuleSource, none⟩)
    ∧ subListOf ("add_include").data
        ("attempting to set a collection context attribute on an object without a context").data
        = false
    ∧ subListOf ("PythonSourceModule").data
        ("attempting to set a collection context attribute on an object without a context").data
        = false
    ∧ subListOf ("add_include").data ("setattr()").data = false
    ∧ subListOf ("PythonSourceModule").data ("setattr()").data = false :=
  ⟨rfl, by decide, by decide, by decide, by decide⟩

/-- C5 (amended): for every capability attribute, a write attempted on a
source-module wrapper whose collection context is absent fails with the
fixed "attempting to set a collection context attribute on an object
without a context" `RuntimeError` (code `PYOXIDIZER`, label
`setattr()`), which names neither the attribute nor the wrapper's kind;
the wrapper's state is unchanged by the failed write. -/
theorem C5_amended_missing_context_write (attr : String)
    (h : add_collection_context_attrs.contains attr = true)
    (inn : PythonModuleSource) (v : SValue) :
    PythonSourceModuleValue.set_attr ⟨inn, none⟩ attr v =
      (.err (.runtime ("PYOXIDIZER")
        "attempting to set a collection context attribute on an object without a context"
        "setattr()"),
       ⟨inn, none⟩) := by
  have hmem : attr ∈ add_collection_context_attrs := by
    rcases mem_attrs_cases attr h with rfl | rfl | rfl | rfl | rfl | rfl | rfl <;> decide
  simp [PythonSourceModuleValue.set_attr, set_attr_add_collection_context, hmem]

/-- C5 witness: the amended statement evaluated at `add_location` on a
concrete contextless wrapper. -/
theorem C5_amended_missing_context_write_witness :
    PythonSourceModuleValue.set_attr ⟨sampleModuleSource, none⟩ "add_location"
        (.str ("in-memory")) =
      (.err (.runtime ("PYOXIDIZER")
        "attempting to set a collection context attribute on an object without a context"
        "setattr()"),
       ⟨sampleModuleSource, none⟩) :=
  C5_amended_missing_context_write ("add_location") (by decide) sampleModuleSource
    (.str ("in-memory"))

/-- C6: on a source-module wrapper whose collection context is absent,
reading any of the seven capability attributes returns `None` rather
than an error, while `has_attr` reports `true` for each of these names
on every source-module wrapper, context present or not. -/
theorem C6_missing_context_read (attr : String)
    (h : add_collection_context_attrs.contains attr = true)
    (inn : PythonModuleSource) :
    PythonSourceModuleValue.get_attr ⟨inn, none⟩ attr = .ok .none
    ∧ (∀ s : PythonSourceModuleValue, s.has_attr attr = true) := by
  rcases mem_attrs_cases attr h with rfl | rfl | rfl | rfl | rfl | rfl | rfl <;>
    exact ⟨rfl, fun s => rfl⟩

/-- C6 witness: `add_location` read on a concrete contextless wrapper
yields `None`, and `has_attr` is `true` on a concrete wrapper whose
context is populated. -/
theorem C6_missing_context_read_witness :
    PythonSourceModuleValue.get_attr ⟨sampleModuleSource, none⟩ "add_location" = .ok .none
    ∧ PythonSourceModuleValue.has_attr
        ⟨sampleModuleSource, some sampleContext⟩ "add_location" = true :=
  ⟨(C6_missing_context_read ("add_location") (by decide) sampleModuleSource).1,
   (C6_missing_context_read ("add_location") (by decide) sampleModuleSource).2
     ⟨sampleModuleSource, some sampleContext⟩⟩

/-- C7: on a source-module wrapper with a present context, writing any
one of the three optimization-level flags succeeds and produces exactly
the context with that single field replaced by the boolean coercion of
the written value — every other field (`include`, `location`,
`location_fallback`, `store_source`, and the other two flags) is
untouched, as the record-update form of the post-state shows. -/
theorem C7_optimization_flags_frame (inn : PythonModuleSource)
    (ctx : PythonResourceAddCollectionContext) (v : SValue) :
    (PythonSourceModuleValue.set_attr ⟨inn, some ctx⟩
        "add_bytecode_optimization_level_zero" v =
      (.ok (), ⟨inn, some { ctx with optimize_level_zero := v.to_bool }⟩))
    ∧ (PythonSourceModuleValue.set_attr ⟨inn, some ctx⟩
        "add_bytecode_optimization_level_one" v =
      (.ok (), ⟨inn, some { ctx with optimize_level_one := v.to_bool }⟩))
    ∧ (PythonSourceModuleValue.set_attr ⟨inn, some ctx⟩
        "add_bytecode_optimization_level_two" v =
      (.ok (), ⟨inn, some { ctx with optimize_level_two := v.to_bool }⟩)) :=
  ⟨rfl, rfl, rfl⟩

/-- C8: `is_resource_starlark_compatible` is true for exactly the four
wrapped record kinds and false for every other kind, and
`python_resource_to_value` panics (is a fatal precondition violation,
not a recoverable error value) precisely on the records for which
`is_resource_starlark_compatible` is false. -/
theorem C8_compatibility_filter :
    (∀ m, is_resource_starlark_compatible (.moduleSource m) = true)
    ∧ (∀ r, is_resource_starlark_compatible (.packageResource r) = true)
    ∧ (∀ r, is_resource_starlark_compatible (.packageDistributionResource r) = true)
    ∧ (∀ em, is_resource_starlark_compatible (.extensionModule em) = true)
    ∧ (is_resource_starlark_compatible .other = false)
    ∧ (∀ (r : PythonResource) (policy : PythonPackagingPolicy),
        (∃ msg, python_resource_to_value r policy = .panicked msg) ↔
          is_resource_starlark_compatible r = false) := by
  refine ⟨fun m => rfl, fun r => rfl, fun r => rfl, fun em => rfl, rfl, ?_⟩
  intro r policy
  cases r <;> simp [python_resource_to_value, is_resource_starlark_compatible]

theorem attrs_contains_iff (attr : String) :
    add_collection_context_attrs.contains attr = true ↔
      attr ∈ add_collection_context_attrs := by
  constructor
  · intro h
    rcases mem_attrs_cases attr h with rfl | rfl | rfl | rfl | rfl | rfl | rfl <;> decide
  · intro h
    simp [add_collection_context_attrs] at h
    rcases h with rfl | rfl | rfl | rfl | rfl | rfl | rfl <;> decide

theorem get_attr_ctx_no_panic (context : Option PythonResourceAddCollectionContext)
    (attr : String) (hc : add_collection_context_attrs.contains attr = true)
    (msg : String) :
    get_attr_add_collection_context context attr ≠ .panicked msg := by
  rcases mem_attrs_cases attr hc with rfl | rfl | rfl | rfl | rfl | rfl | rfl <;>
    cases context with
    | none => simp [get_attr_add_collection_context, add_collection_context_attrs]
    | some ctx =>
      first
      | (simp [get_attr_add_collection_context, add_collection_context_attrs]; done)
      | (cases hfb : ctx.location_fallback <;>
          simp [get_attr_add_collection_context, add_collection_context_attrs, hfb])

theorem set_attr_ctx_no_panic (context : Option PythonResourceAddCollectionContext)
    (attr : String) (hc : add_collection_context_attrs.contains attr = true)
    (v : SValue) (msg : String) :
    (set_attr_add_collection_context context attr v).1 ≠ .panicked msg := by
  rcases mem_attrs_cases attr hc with rfl | rfl | rfl | rfl | rfl | rfl | rfl <;>
    cases context with
    | none => simp [set_attr_add_collection_context]
    | some ctx =>
      first
      | (simp [set_attr_add_collection_context]; done)
      | (cases hv : OptionalResourceLocation.try_from_value v with
         | error e => simp [set_attr_add_collection_context, hv]
         | ok loc =>
           cases hloc : loc.inner <;>
             simp [set_attr_add_collection_context, hv, hloc])

/-- C10: the panic branches inside the shared capability getter (its
membership guard and its inner wildcard) and setter (its unrecognized-
attribute arm) are unreachable through the public `get_attr`/`set_attr`
of the source-module wrapper: that dispatch delegates to them only after
checking membership in `add_collection_context_attrs`, whose seven
entries are exactly the names both functions match on, so no attribute
string and no wrapper state makes the public surface panic. -/
theorem C10_panic_branches_unreachable (s : PythonSourceModuleValue)
    (attr : String) (v : SValue) :
    (∀ msg, s.get_attr attr ≠ .panicked msg)
    ∧ (∀ msg, (s.set_attr attr v).1 ≠ .panicked msg) := by
  constructor
  · intro msg
    by_cases h1 : attr = "name"
    · subst h1; simp [PythonSourceModuleValue.get_attr]
    by_cases h2 : attr = "source"
    · subst h2
      cases hs : s.inner.source <;> simp [PythonSourceModuleValue.get_attr, hs]
    by_cases h3 : attr = "is_package"
    · subst h3; simp [PythonSourceModuleValue.get_attr]
    by_cases hc : add_collection_context_attrs.contains attr = true
    · have hmem : attr ∈ add_collection_context_attrs := (attrs_contains_iff attr).1 hc
      have hred : s.get_attr attr = get_attr_add_collection_context s.add_context attr := by
        simp [PythonSourceModuleValue.get_attr, h1, h2, h3, hmem]
      rw [hred]
      exact get_attr_ctx_no_panic s.add_context attr hc msg
    · have hmem : ¬ attr ∈ add_collection_context_attrs :=
        fun hm => hc ((attrs_contains_iff attr).2 hm)
      simp [PythonSourceModuleValue.get_attr, h1, h2, h3, hmem]
  · intro msg
    by_cases hc : add_collection_context_attrs.contains attr = true
    · have hmem : attr ∈ add_collection_context_attrs := (attrs_contains_iff attr).1 hc
      have hred : (s.set_attr attr v).1 =
          (set_attr_add_collection_context s.add_context attr v).1 := by
        simp [PythonSourceModuleValue.set_attr, hmem]
      rw [hred]
      exact set_attr_ctx_no_panic s.add_context attr hc v msg
    · have hmem : ¬ attr ∈ add_collection_context_attrs :=
        fun hm => hc ((attrs_contains_iff attr).2 hm)
      simp [PythonSourceModuleValue.set_attr, hmem]

end PythonResourceModel
